import Mathlib

/-!
Shallow embedding of the "3D Matrix Manipulation" frontend.

Scalars that are JavaScript numbers are modelled as rationals (ℚ), so all
arithmetic is exact.  The constant `Math.PI` is passed around as an explicit
parameter `pi : ℚ` in definitions that use it; theorems assume only what the
code needs (`pi ≠ 0`).

Sources embedded:
  * `src/3D Matrix Manipulation Frontend/src/types.ts` (in `src/unnamed/part_000`):
    the data model (`SceneObject`, `Transform`, `ViewportSettings`, `AppState`).
  * `src/3D Matrix Manipulation Frontend/src/contexts/AppContext.tsx`: `appReducer`.
  * `src/3D Matrix Manipulation Frontend/src/components/TransformationControls.tsx`:
    `handleRotationChange`, `handleInputChange` and the degree display formula.
  * `src/unnamed/part_001` (`MatrixPanel.tsx`): `applyIdentityMatrix`,
    `invertMatrix`, `handleCustomMatrixChange`.
  * `src/unnamed/part_002` (`ViewportControls.tsx` + `AdvancedMatrixFeatures.tsx`):
    the four viewport toggles and `checkIfOrthogonal`.
  * The `THREE.Matrix4` operations the panel delegates to (`determinant`,
    `invert`, `transpose`, `multiply`, `equals`, `identity`) are embedded from
    the three.js library source, element by element.
-/

/-- A JavaScript `{x, y, z}` record / `THREE.Vector3` with exact scalars. -/
structure Vec3 where
  x : ℚ
  y : ℚ
  z : ℚ
deriving DecidableEq, Repr

/-- `Transform` from `types.ts`: the position/rotation/scale triple shown in
the editing panel. -/
structure Transform where
  position : Vec3
  rotation : Vec3
  scale : Vec3
deriving DecidableEq, Repr

/-- `THREE.Matrix4`.  Fields are the sixteen entries of `elements` in
column-major order, named `nRC` (row `R`, column `C`) exactly as in the
three.js `Matrix4` source: `n11 = elements[0]`, `n21 = elements[1]`,
`n31 = elements[2]`, `n41 = elements[3]`, `n12 = elements[4]`, …,
`n44 = elements[15]`. -/
structure Matrix4 where
  n11 : ℚ
  n21 : ℚ
  n31 : ℚ
  n41 : ℚ
  n12 : ℚ
  n22 : ℚ
  n32 : ℚ
  n42 : ℚ
  n13 : ℚ
  n23 : ℚ
  n33 : ℚ
  n43 : ℚ
  n14 : ℚ
  n24 : ℚ
  n34 : ℚ
  n44 : ℚ
deriving DecidableEq, Repr

/-- `new THREE.Matrix4().identity()`. -/
def identity4 : Matrix4 :=
  ⟨1, 0, 0, 0, 0, 1, 0, 0, 0, 0, 1, 0, 0, 0, 0, 1⟩

/-- The all-zero matrix, `this.set(0, …, 0)` in `Matrix4.invert`'s
singular branch. -/
def zero4 : Matrix4 :=
  ⟨0, 0, 0, 0, 0, 0, 0, 0, 0, 0, 0, 0, 0, 0, 0, 0⟩

/-- Possible values of `viewportSettings.projection` in `types.ts`. -/
inductive Projection where
  | perspective
  | orthographic
deriving DecidableEq, Repr

/-- Possible values of `state.theme` in `types.ts`. -/
inductive Theme where
  | light
  | dark
deriving DecidableEq, Repr

/-- `ViewportSettings` from `types.ts`. -/
structure ViewportSettings where
  showGrid : Bool
  showAxes : Bool
  wireframe : Bool
  projection : Projection
deriving DecidableEq, Repr

/-- `SceneObject` from `types.ts`.  `position`/`rotation`/`scale`/`matrix` are
the cached transform fields of the record; `meshMatrix` is the matrix of the
`THREE.Mesh` the record points to (`obj.mesh.matrix`), the part of the mesh
the matrix-panel operations read and write.  `objType` stands for the `type`
field (a name that reads better in Lean); the Euler rotation's scalar
components are kept, its order string (always `'XYZ'` here) is dropped. -/
structure SceneObject where
  id : String
  name : String
  objType : String
  position : Vec3
  rotation : Vec3
  scale : Vec3
  matrix : Matrix4
  meshMatrix : Matrix4
  color : String
deriving DecidableEq, Repr

/-- `AppState` from `types.ts`.  `selectedObjectId : string | null` becomes
`Option String`. -/
structure AppState where
  objects : List SceneObject
  selectedObjectId : Option String
  transform : Transform
  viewportSettings : ViewportSettings
  theme : Theme
deriving DecidableEq, Repr

/-- `initialTransform` in `AppContext.tsx`. -/
def initialTransform : Transform :=
  { position := ⟨0, 0, 0⟩, rotation := ⟨0, 0, 0⟩, scale := ⟨1, 1, 1⟩ }

/-- `initialViewportSettings` in `AppContext.tsx`. -/
def initialViewportSettings : ViewportSettings :=
  { showGrid := true, showAxes := true, wireframe := false
    projection := Projection.perspective }

/-- `initialState` in `AppContext.tsx`. -/
def initialState : AppState :=
  { objects := [], selectedObjectId := none, transform := initialTransform
    viewportSettings := initialViewportSettings, theme := Theme.dark }

/-- The payload of an `UPDATE_TRANSFORM` action.  Dispatch sites pass an
object with a subset of the keys `position`/`rotation`/`scale`; the reducer
spreads it over the old transform, so a missing key (`none`) keeps the old
sub-record. -/
structure TransformPayload where
  position : Option Vec3
  rotation : Option Vec3
  scale : Option Vec3
deriving DecidableEq, Repr

/-- The payload of an `UPDATE_VIEWPORT_SETTINGS` action, again a subset of
the keys of `ViewportSettings`. -/
structure ViewportPayload where
  showGrid : Option Bool
  showAxes : Option Bool
  wireframe : Option Bool
  projection : Option Projection
deriving DecidableEq, Repr

/-- `{ ...state.transform, ...action.payload }` in the `UPDATE_TRANSFORM`
branch of `appReducer`. -/
def mergeTransform (t : Transform) (p : TransformPayload) : Transform :=
  { position := p.position.getD t.position
    rotation := p.rotation.getD t.rotation
    scale := p.scale.getD t.scale }

/-- `{ ...state.viewportSettings, ...action.payload }` in the
`UPDATE_VIEWPORT_SETTINGS` branch of `appReducer`. -/
def mergeViewport (v : ViewportSettings) (p : ViewportPayload) : ViewportSettings :=
  { showGrid := p.showGrid.getD v.showGrid
    showAxes := p.showAxes.getD v.showAxes
    wireframe := p.wireframe.getD v.wireframe
    projection := p.projection.getD v.projection }

/-- `AppAction` from `AppContext.tsx`: the eight action types with their
payloads. -/
inductive AppAction where
  | addObject (o : SceneObject)
  | removeObject (id : String)
  | selectObject (id : String)
  | updateTransform (p : TransformPayload)
  | resetTransform
  | updateViewportSettings (p : ViewportPayload)
  | toggleTheme
  | updateObjectMatrix (id : String) (m : Matrix4)
deriving DecidableEq, Repr

/-- `appReducer` from `AppContext.tsx`, branch by branch.  In
`SELECT_OBJECT`, `state.objects.find(obj => obj.id === action.payload)`
becomes `List.find?`; the found object's position/rotation/scale are copied
component by component as in the source.  In `REMOVE_OBJECT`,
`state.objects.filter(obj => obj.id !== action.payload)` becomes
`List.filter`, and `state.selectedObjectId === action.payload` is
`Option`-aware equality (JS `null === string` is false, matching
`none = some i` being false). -/
def appReducer (state : AppState) (action : AppAction) : AppState :=
  match action with
  | AppAction.addObject o =>
      { state with objects := state.objects ++ [o] }
  | AppAction.removeObject i =>
      { state with
        objects := state.objects.filter (fun obj => obj.id != i)
        selectedObjectId :=
          if state.selectedObjectId = some i then none else state.selectedObjectId }
  | AppAction.selectObject i =>
      match state.objects.find? (fun obj => obj.id == i) with
      | some selectedObject =>
          { state with
            selectedObjectId := some i
            transform :=
              { position := ⟨selectedObject.position.x, selectedObject.position.y,
                  selectedObject.position.z⟩
                rotation := ⟨selectedObject.rotation.x, selectedObject.rotation.y,
                  selectedObject.rotation.z⟩
                scale := ⟨selectedObject.scale.x, selectedObject.scale.y,
                  selectedObject.scale.z⟩ } }
      | none =>
          { state with selectedObjectId := some i, transform := initialTransform }
  | AppAction.updateTransform p =>
      { state with transform := mergeTransform state.transform p }
  | AppAction.resetTransform =>
      { state with transform := initialTransform }
  | AppAction.updateViewportSettings p =>
      { state with viewportSettings := mergeViewport state.viewportSettings p }
  | AppAction.toggleTheme =>
      { state with
        theme := match state.theme with
          | Theme.light => Theme.dark
          | Theme.dark => Theme.light }
  | AppAction.updateObjectMatrix i m =>
      { state with
        objects := state.objects.map (fun obj =>
          if obj.id = i then { obj with matrix := m } else obj) }

/-- `THREE.Matrix4.determinant()`, embedded term for term from the three.js
source (the cofactor expansion along the bottom row as written there). -/
def threeDeterminant (m : Matrix4) : ℚ :=
  m.n41 * (m.n14 * m.n23 * m.n32 - m.n13 * m.n24 * m.n32 - m.n14 * m.n22 * m.n33
      + m.n12 * m.n24 * m.n33 + m.n13 * m.n22 * m.n34 - m.n12 * m.n23 * m.n34)
  + m.n42 * (m.n11 * m.n23 * m.n34 - m.n11 * m.n24 * m.n33 + m.n14 * m.n21 * m.n33
      - m.n13 * m.n21 * m.n34 + m.n13 * m.n24 * m.n31 - m.n14 * m.n23 * m.n31)
  + m.n43 * (m.n11 * m.n24 * m.n32 - m.n11 * m.n22 * m.n34 - m.n14 * m.n21 * m.n32
      + m.n12 * m.n21 * m.n34 + m.n14 * m.n22 * m.n31 - m.n12 * m.n24 * m.n31)
  + m.n44 * (-m.n13 * m.n22 * m.n31 - m.n11 * m.n23 * m.n32 + m.n11 * m.n22 * m.n33
      + m.n13 * m.n21 * m.n32 - m.n12 * m.n21 * m.n33 + m.n12 * m.n23 * m.n31)

/-- The first-column cofactor `t11` computed inside `THREE.Matrix4.invert()`. -/
def invT11 (m : Matrix4) : ℚ :=
  m.n23 * m.n34 * m.n42 - m.n24 * m.n33 * m.n42 + m.n24 * m.n32 * m.n43
    - m.n22 * m.n34 * m.n43 - m.n23 * m.n32 * m.n44 + m.n22 * m.n33 * m.n44

/-- The cofactor `t12` computed inside `THREE.Matrix4.invert()`. -/
def invT12 (m : Matrix4) : ℚ :=
  m.n14 * m.n33 * m.n42 - m.n13 * m.n34 * m.n42 - m.n14 * m.n32 * m.n43
    + m.n12 * m.n34 * m.n43 + m.n13 * m.n32 * m.n44 - m.n12 * m.n33 * m.n44

/-- The cofactor `t13` computed inside `THREE.Matrix4.invert()`. -/
def invT13 (m : Matrix4) : ℚ :=
  m.n13 * m.n24 * m.n42 - m.n14 * m.n23 * m.n42 + m.n14 * m.n22 * m.n43
    - m.n12 * m.n24 * m.n43 - m.n13 * m.n22 * m.n44 + m.n12 * m.n23 * m.n44

/-- The cofactor `t14` computed inside `THREE.Matrix4.invert()`. -/
def invT14 (m : Matrix4) : ℚ :=
  m.n14 * m.n23 * m.n32 - m.n13 * m.n24 * m.n32 - m.n14 * m.n22 * m.n33
    + m.n12 * m.n24 * m.n33 + m.n13 * m.n22 * m.n34 - m.n12 * m.n23 * m.n34

/-- The determinant as `THREE.Matrix4.invert()` computes it internally:
`det = n11 * t11 + n21 * t12 + n31 * t13 + n41 * t14`. -/
def invertDet (m : Matrix4) : ℚ :=
  m.n11 * invT11 m + m.n21 * invT12 m + m.n31 * invT13 m + m.n41 * invT14 m

/-- `THREE.Matrix4.invert()`: if the internal determinant is `0` the result
is the all-zero matrix (`this.set(0, …, 0)`); otherwise every element is the
corresponding cofactor times `detInv = 1 / det`, exactly as assigned to
`te[0] … te[15]` in the three.js source. -/
def threeInvert (m : Matrix4) : Matrix4 :=
  let det := invertDet m
  if det = 0 then zero4
  else
    let detInv := 1 / det
    { n11 := invT11 m * detInv
      n21 := (m.n24 * m.n33 * m.n41 - m.n23 * m.n34 * m.n41 - m.n24 * m.n31 * m.n43
        + m.n21 * m.n34 * m.n43 + m.n23 * m.n31 * m.n44 - m.n21 * m.n33 * m.n44) * detInv
      n31 := (m.n22 * m.n34 * m.n41 - m.n24 * m.n32 * m.n41 + m.n24 * m.n31 * m.n42
        - m.n21 * m.n34 * m.n42 - m.n22 * m.n31 * m.n44 + m.n21 * m.n32 * m.n44) * detInv
      n41 := (m.n23 * m.n32 * m.n41 - m.n22 * m.n33 * m.n41 - m.n23 * m.n31 * m.n42
        + m.n21 * m.n33 * m.n42 + m.n22 * m.n31 * m.n43 - m.n21 * m.n32 * m.n43) * detInv
      n12 := invT12 m * detInv
      n22 := (m.n13 * m.n34 * m.n41 - m.n14 * m.n33 * m.n41 + m.n14 * m.n31 * m.n43
        - m.n11 * m.n34 * m.n43 - m.n13 * m.n31 * m.n44 + m.n11 * m.n33 * m.n44) * detInv
      n32 := (m.n14 * m.n32 * m.n41 - m.n12 * m.n34 * m.n41 - m.n14 * m.n31 * m.n42
        + m.n11 * m.n34 * m.n42 + m.n12 * m.n31 * m.n44 - m.n11 * m.n32 * m.n44) * detInv
      n42 := (m.n12 * m.n33 * m.n41 - m.n13 * m.n32 * m.n41 + m.n13 * m.n31 * m.n42
        - m.n11 * m.n33 * m.n42 - m.n12 * m.n31 * m.n43 + m.n11 * m.n32 * m.n43) * detInv
      n13 := invT13 m * detInv
      n23 := (m.n14 * m.n23 * m.n41 - m.n13 * m.n24 * m.n41 - m.n14 * m.n21 * m.n43
        + m.n11 * m.n24 * m.n43 + m.n13 * m.n21 * m.n44 - m.n11 * m.n23 * m.n44) * detInv
      n33 := (m.n12 * m.n24 * m.n41 - m.n14 * m.n22 * m.n41 + m.n14 * m.n21 * m.n42
        - m.n11 * m.n24 * m.n42 - m.n12 * m.n21 * m.n44 + m.n11 * m.n22 * m.n44) * detInv
      n43 := (m.n13 * m.n22 * m.n41 - m.n12 * m.n23 * m.n41 - m.n13 * m.n21 * m.n42
        + m.n11 * m.n23 * m.n42 + m.n12 * m.n21 * m.n43 - m.n11 * m.n22 * m.n43) * detInv
      n14 := invT14 m * detInv
      n24 := (m.n13 * m.n24 * m.n31 - m.n14 * m.n23 * m.n31 + m.n14 * m.n21 * m.n33
        - m.n11 * m.n24 * m.n33 - m.n13 * m.n21 * m.n34 + m.n11 * m.n23 * m.n34) * detInv
      n34 := (m.n14 * m.n22 * m.n31 - m.n12 * m.n24 * m.n31 - m.n14 * m.n21 * m.n32
        + m.n11 * m.n24 * m.n32 + m.n12 * m.n21 * m.n34 - m.n11 * m.n22 * m.n34) * detInv
      n44 := (m.n12 * m.n23 * m.n31 - m.n13 * m.n22 * m.n31 + m.n13 * m.n21 * m.n32
        - m.n11 * m.n23 * m.n32 - m.n12 * m.n21 * m.n33 + m.n11 * m.n22 * m.n33) * detInv }

/-- `THREE.Matrix4.transpose()` (applied to a clone, so modelled purely). -/
def transpose4 (m : Matrix4) : Matrix4 :=
  { n11 := m.n11, n21 := m.n12, n31 := m.n13, n41 := m.n14
    n12 := m.n21, n22 := m.n22, n32 := m.n23, n42 := m.n24
    n13 := m.n31, n23 := m.n32, n33 := m.n33, n43 := m.n34
    n14 := m.n41, n24 := m.n42, n34 := m.n43, n44 := m.n44 }

/-- `a.multiply(b)` = `THREE.Matrix4.multiplyMatrices(a, b)`: the matrix
product `a * b`, row-times-column as in the three.js source. -/
def mul4 (a b : Matrix4) : Matrix4 :=
  { n11 := a.n11 * b.n11 + a.n12 * b.n21 + a.n13 * b.n31 + a.n14 * b.n41
    n12 := a.n11 * b.n12 + a.n12 * b.n22 + a.n13 * b.n32 + a.n14 * b.n42
    n13 := a.n11 * b.n13 + a.n12 * b.n23 + a.n13 * b.n33 + a.n14 * b.n43
    n14 := a.n11 * b.n14 + a.n12 * b.n24 + a.n13 * b.n34 + a.n14 * b.n44
    n21 := a.n21 * b.n11 + a.n22 * b.n21 + a.n23 * b.n31 + a.n24 * b.n41
    n22 := a.n21 * b.n12 + a.n22 * b.n22 + a.n23 * b.n32 + a.n24 * b.n42
    n23 := a.n21 * b.n13 + a.n22 * b.n23 + a.n23 * b.n33 + a.n24 * b.n43
    n24 := a.n21 * b.n14 + a.n22 * b.n24 + a.n23 * b.n34 + a.n24 * b.n44
    n31 := a.n31 * b.n11 + a.n32 * b.n21 + a.n33 * b.n31 + a.n34 * b.n41
    n32 := a.n31 * b.n12 + a.n32 * b.n22 + a.n33 * b.n32 + a.n34 * b.n42
    n33 := a.n31 * b.n13 + a.n32 * b.n23 + a.n33 * b.n33 + a.n34 * b.n43
    n34 := a.n31 * b.n14 + a.n32 * b.n24 + a.n33 * b.n34 + a.n34 * b.n44
    n41 := a.n41 * b.n11 + a.n42 * b.n21 + a.n43 * b.n31 + a.n44 * b.n41
    n42 := a.n41 * b.n12 + a.n42 * b.n22 + a.n43 * b.n32 + a.n44 * b.n42
    n43 := a.n41 * b.n13 + a.n42 * b.n23 + a.n43 * b.n33 + a.n44 * b.n43
    n44 := a.n41 * b.n14 + a.n42 * b.n24 + a.n43 * b.n34 + a.n44 * b.n44 }

/-- `THREE.Matrix4.equals`: element-wise strict equality. -/
def matrix4Equals (a b : Matrix4) : Bool :=
  decide (a = b)

/-- `checkIfOrthogonal` from `AdvancedMatrixFeatures.tsx`: clone the matrix,
transpose the clone, multiply it by the original (`mT.multiply(m)`, i.e.
`Mᵀ * M`) and compare with the identity.  The clone makes the check pure, so
the inspected matrix is untouched by construction. -/
def checkIfOrthogonal (m : Matrix4) : Bool :=
  let mT := transpose4 m
  matrix4Equals (mul4 mT m) identity4

/-- `state.objects.find(obj => obj.id === state.selectedObjectId)`, the
`selectedObject` lookup shared by `MatrixPanel` and `TransformationControls`
(with `selectedObjectId === null` matching nothing). -/
def findSelected (s : AppState) : Option SceneObject :=
  match s.selectedObjectId with
  | none => none
  | some i => s.objects.find? (fun obj => obj.id == i)

/-- `selectedObject.mesh.matrix.copy(m)`: the mesh of the object with the
given id is mutated in place; modelled by rewriting that object's
`meshMatrix` inside the state. -/
def setMeshMatrix (s : AppState) (i : String) (m : Matrix4) : AppState :=
  { s with objects := s.objects.map (fun obj =>
      if obj.id = i then { obj with meshMatrix := m } else obj) }

/-- `applyIdentityMatrix` from `MatrixPanel.tsx`: early return when nothing
is selected; otherwise copy the identity into the selected mesh's matrix and
dispatch `UPDATE_TRANSFORM` with zero position, zero rotation and unit
scale.  (`matrixAutoUpdate = false` and `updateMatrixWorld` concern only the
renderer and have no counterpart in the state model.) -/
def applyIdentityMatrix (s : AppState) : AppState :=
  match findSelected s with
  | none => s
  | some selectedObject =>
      let s' := setMeshMatrix s selectedObject.id identity4
      appReducer s' (AppAction.updateTransform
        { position := some ⟨0, 0, 0⟩
          rotation := some ⟨0, 0, 0⟩
          scale := some ⟨1, 1, 1⟩ })

/-- What a run of the `invertMatrix` click handler reports via `toast`. -/
inductive ToastKind where
  | success
  | error
deriving DecidableEq, Repr

/-- `invertMatrix` from `MatrixPanel.tsx`.  The mesh matrix is copied and
inverted (`new THREE.Matrix4().copy(mesh.matrix).invert()`); if the
determinant of the result is `0` an error toast fires and the handler
returns with nothing written; otherwise the inverse is copied into the mesh
matrix and `UPDATE_TRANSFORM` is dispatched with the decomposition of the
inverse.  `decompose` stands for the three.js
`Matrix4.decompose` / `Euler.setFromQuaternion` pipeline the handler
delegates to; the claim constrains only which matrix is decomposed, so it is
a parameter here. -/
def invertMatrix (decompose : Matrix4 → Transform) (s : AppState) :
    AppState × Option ToastKind :=
  match findSelected s with
  | none => (s, none)
  | some selectedObject =>
      let inverseMatrix := threeInvert selectedObject.meshMatrix
      if threeDeterminant inverseMatrix = 0 then
        (s, some ToastKind.error)
      else
        let s' := setMeshMatrix s selectedObject.id inverseMatrix
        let t := decompose inverseMatrix
        (appReducer s' (AppAction.updateTransform
          { position := some t.position
            rotation := some t.rotation
            scale := some t.scale }), some ToastKind.success)

/-- `toggleGrid` from `ViewportControls.tsx`. -/
def toggleGrid (s : AppState) : AppState :=
  appReducer s (AppAction.updateViewportSettings
    { showGrid := some (!s.viewportSettings.showGrid)
      showAxes := none, wireframe := none, projection := none })

/-- `toggleAxes` from `ViewportControls.tsx`. -/
def toggleAxes (s : AppState) : AppState :=
  appReducer s (AppAction.updateViewportSettings
    { showGrid := none, showAxes := some (!s.viewportSettings.showAxes)
      wireframe := none, projection := none })

/-- `toggleWireframe` from `ViewportControls.tsx`. -/
def toggleWireframe (s : AppState) : AppState :=
  appReducer s (AppAction.updateViewportSettings
    { showGrid := none, showAxes := none
      wireframe := some (!s.viewportSettings.wireframe), projection := none })

/-- `toggleProjection` from `ViewportControls.tsx`: the ternary
`projection === 'perspective' ? 'orthographic' : 'perspective'`. -/
def toggleProjection (s : AppState) : AppState :=
  appReducer s (AppAction.updateViewportSettings
    { showGrid := none, showAxes := none, wireframe := none
      projection := some
        (match s.viewportSettings.projection with
          | Projection.perspective => Projection.orthographic
          | Projection.orthographic => Projection.perspective) })

/-- An axis key `'x' | 'y' | 'z'`. -/
inductive Axis where
  | x
  | y
  | z
deriving DecidableEq, Repr

/-- Read component `[axis]` of a vector. -/
def getAxis (v : Vec3) (a : Axis) : ℚ :=
  match a with
  | Axis.x => v.x
  | Axis.y => v.y
  | Axis.z => v.z

/-- `{ ...v, [axis]: value }`: overwrite one component, keep the others. -/
def setAxis (v : Vec3) (a : Axis) (value : ℚ) : Vec3 :=
  match a with
  | Axis.x => { v with x := value }
  | Axis.y => { v with y := value }
  | Axis.z => { v with z := value }

/-- `handleRotationChange` from `TransformationControls.tsx` (the rotation
slider): dispatch `UPDATE_TRANSFORM` with the current rotation record, the
chosen axis overwritten by `(value * Math.PI) / 180`. -/
def handleRotationChange (pi : ℚ) (s : AppState) (axis : Axis) (value : ℚ) :
    AppState :=
  appReducer s (AppAction.updateTransform
    { position := none
      rotation := some (setAxis s.transform.rotation axis (value * pi / 180))
      scale := none })

/-- The value shown by the rotation slider and numeric input in
`TransformationControls.tsx`: `(state.transform.rotation[axis] * 180) / Math.PI`. -/
def displayedRotationDeg (pi : ℚ) (s : AppState) (axis : Axis) : ℚ :=
  getAxis s.transform.rotation axis * 180 / pi

/-- The field key `'position' | 'rotation' | 'scale'` of `handleInputChange`. -/
inductive TransformField where
  | position
  | rotation
  | scale
deriving DecidableEq, Repr

/-- Read field `[type]` of the transform. -/
def getField (t : Transform) (f : TransformField) : Vec3 :=
  match f with
  | TransformField.position => t.position
  | TransformField.rotation => t.rotation
  | TransformField.scale => t.scale

/-- `handleInputChange` from `TransformationControls.tsx`.  JavaScript's
`parseFloat` on the raw string is modelled by its outcome
`parsed : Option ℚ`, with `none` standing for `NaN`; on `NaN` the handler
returns without dispatching.  For `'rotation'` the value is converted by
`(numValue * Math.PI) / 180`, otherwise it is stored as-is; either way the
payload carries the old sub-record with one axis overwritten. -/
def handleInputChange (pi : ℚ) (s : AppState) (f : TransformField) (axis : Axis)
    (parsed : Option ℚ) : AppState :=
  match parsed with
  | none => s
  | some numValue =>
      match f with
      | TransformField.rotation =>
          appReducer s (AppAction.updateTransform
            { position := none
              rotation := some (setAxis s.transform.rotation axis (numValue * pi / 180))
              scale := none })
      | TransformField.position =>
          appReducer s (AppAction.updateTransform
            { position := some (setAxis s.transform.position axis numValue)
              rotation := none, scale := none })
      | TransformField.scale =>
          appReducer s (AppAction.updateTransform
            { position := none, rotation := none
              scale := some (setAxis s.transform.scale axis numValue) })

/-- `handleCustomMatrixChange` from `MatrixPanel.tsx`: on a numeric parse
(`!isNaN`) copy the array and overwrite one slot, otherwise do nothing.
`customMatrix` is the React state array of 16 numbers; `parsed` is the
outcome of `parseFloat(value)` with `none` for `NaN`. -/
def handleCustomMatrixChange (customMatrix : List ℚ) (index : Nat)
    (parsed : Option ℚ) : List ℚ :=
  match parsed with
  | none => customMatrix
  | some newValue => customMatrix.set index newValue

/-- The mesh matrix of the object with a given id, as found in the state. -/
def meshMatrixOf (s : AppState) (i : String) : Option Matrix4 :=
  (s.objects.find? (fun o => o.id == i)).map (fun o => o.meshMatrix)

/-- The five action kinds that, per the spec's single-reducer data model,
never touch the objects list: `SELECT_OBJECT`, `UPDATE_TRANSFORM`,
`RESET_TRANSFORM`, `UPDATE_VIEWPORT_SETTINGS`, `TOGGLE_THEME`. -/
def frameAction (a : AppAction) : Bool :=
  match a with
  | AppAction.selectObject _ => true
  | AppAction.updateTransform _ => true
  | AppAction.resetTransform => true
  | AppAction.updateViewportSettings _ => true
  | AppAction.toggleTheme => true
  | _ => false

/-- A mesh matrix with determinant zero (bottom-right entry zeroed). -/
def singular4 : Matrix4 :=
  ⟨1, 0, 0, 0, 0, 1, 0, 0, 0, 0, 1, 0, 0, 0, 0, 0⟩

/-- A concrete cube object, shaped like the records `addObject` builds. -/
def cubeObj : SceneObject :=
  { id := "cube_1", name := "Cube 1", objType := "cube"
    position := ⟨1, 2, 3⟩, rotation := ⟨1/2, 0, 0⟩, scale := ⟨2, 2, 2⟩
    matrix := identity4, meshMatrix := identity4, color := "#ff6b6b" }

/-- A concrete sphere object whose mesh matrix is singular. -/
def sphereObj : SceneObject :=
  { id := "sphere_1", name := "Sphere 2", objType := "sphere"
    position := ⟨0, 0, 0⟩, rotation := ⟨0, 0, 0⟩, scale := ⟨1, 1, 1⟩
    matrix := identity4, meshMatrix := singular4, color := "#4ecdc4" }

/-- A demo state with the cube selected. -/
def demoState : AppState :=
  { objects := [cubeObj, sphereObj], selectedObjectId := some "cube_1"
    transform := initialTransform
    viewportSettings := initialViewportSettings, theme := Theme.dark }

/-- The demo state with the singular-mesh sphere selected. -/
def demoStateSphere : AppState :=
  { demoState with selectedObjectId := some "sphere_1" }

attribute [ext] Vec3 Transform Matrix4 ViewportSettings AppState

set_option maxHeartbeats 4000000

/-- The determinant computed inside `invert()` agrees with the
`determinant()` method's formula. -/
theorem invertDet_eq_threeDeterminant (m : Matrix4) :
    invertDet m = threeDeterminant m := by
  simp only [invertDet, threeDeterminant, invT11, invT12, invT13, invT14]
  ring

/-- The three.js determinant is multiplicative. -/
theorem threeDeterminant_mul4 (a b : Matrix4) :
    threeDeterminant (mul4 a b) = threeDeterminant a * threeDeterminant b := by
  simp only [threeDeterminant, mul4]
  ring

theorem threeDeterminant_identity4 : threeDeterminant identity4 = 1 := by
  simp [threeDeterminant, identity4]

theorem threeDeterminant_zero4 : threeDeterminant zero4 = 0 := by
  simp [threeDeterminant, zero4]

/-- On a singular matrix, `invert()` takes its zeroing branch. -/
theorem threeInvert_of_det_eq_zero (m : Matrix4) (h : threeDeterminant m = 0) :
    threeInvert m = zero4 := by
  rw [threeInvert]
  rw [invertDet_eq_threeDeterminant, h]
  simp

/-- On an invertible matrix, the result of `invert()` is a left inverse. -/
theorem mul4_threeInvert (m : Matrix4) (h : threeDeterminant m ≠ 0) :
    mul4 (threeInvert m) m = identity4 := by
  have hd : invertDet m ≠ 0 := by rwa [invertDet_eq_threeDeterminant]
  simp only [threeInvert, if_neg hd]
  simp only [invertDet, invT11, invT12, invT13, invT14] at hd ⊢
  ext <;> (simp only [mul4, identity4]; field_simp; ring)

/-- On an invertible matrix, the result of `invert()` has nonzero
determinant (so the panel's post-inversion `determinant() === 0` check
passes exactly when the original matrix was invertible). -/
theorem threeDeterminant_threeInvert_ne_zero (m : Matrix4)
    (h : threeDeterminant m ≠ 0) :
    threeDeterminant (threeInvert m) ≠ 0 := by
  intro h0
  have h1 := threeDeterminant_mul4 (threeInvert m) m
  rw [mul4_threeInvert m h, threeDeterminant_identity4, h0, zero_mul] at h1
  exact one_ne_zero h1

/-- `find?` commutes with a map that does not change ids. -/
theorem find?_map_of_id_eq (f : SceneObject → SceneObject)
    (hf : ∀ o, (f o).id = o.id) (i : String) (l : List SceneObject) :
    (l.map f).find? (fun o => o.id == i) =
      (l.find? (fun o => o.id == i)).map f := by
  induction l with
  | nil => rfl
  | cons o l ih =>
      simp only [List.map_cons, List.find?_cons, hf o]
      cases h : (o.id == i) <;> simp [h, ih]

/-- Unfolding `findSelected s = some obj`: there is a selected id, the find
over the object list returns `obj`, and `obj` carries that id. -/
theorem findSelected_spec (s : AppState) (obj : SceneObject)
    (h : findSelected s = some obj) :
    ∃ i, s.selectedObjectId = some i ∧
      s.objects.find? (fun o => o.id == i) = some obj ∧ obj.id = i := by
  unfold findSelected at h
  cases hs : s.selectedObjectId with
  | none => rw [hs] at h; exact absurd h (by simp)
  | some i =>
      rw [hs] at h
      refine ⟨i, rfl, h, ?_⟩
      have := List.find?_some h
      exact eq_of_beq this

/-- After `setMeshMatrix s obj.id m`, looking the object up again yields the
new mesh matrix (when the object was found before). -/
theorem meshMatrixOf_setMeshMatrix (s : AppState) (obj : SceneObject)
    (i : String) (m : Matrix4)
    (h : s.objects.find? (fun o => o.id == i) = some obj) (hid : obj.id = i) :
    meshMatrixOf (setMeshMatrix s i m) i = some m := by
  unfold meshMatrixOf setMeshMatrix
  rw [find?_map_of_id_eq]
  · rw [h]
    simp [hid]
  · intro o
    by_cases ho : o.id = i <;> simp [ho]

/-- C1: dispatching `SELECT_OBJECT` with the id of an object found in
`state.objects` sets `selectedObjectId` to that id and sets
`state.transform`'s position, rotation and scale componentwise equal to that
object's cached position, rotation and scale. -/
theorem selectObject_mirrors_found_object (s : AppState) (i : String)
    (obj : SceneObject)
    (h : s.objects.find? (fun o => o.id == i) = some obj) :
    (appReducer s (AppAction.selectObject i)).selectedObjectId = some i ∧
    (appReducer s (AppAction.selectObject i)).transform =
      { position := obj.position, rotation := obj.rotation, scale := obj.scale } := by
  simp [appReducer, h]

/-- Witness for C1 at a concrete state: selecting the cube mirrors its
cached transform. -/
theorem selectObject_mirrors_found_object_witness :
    (appReducer demoState (AppAction.selectObject "cube_1")).selectedObjectId =
      some "cube_1" ∧
    (appReducer demoState (AppAction.selectObject "cube_1")).transform =
      { position := ⟨1, 2, 3⟩, rotation := ⟨1/2, 0, 0⟩, scale := ⟨2, 2, 2⟩ } :=
  selectObject_mirrors_found_object demoState "cube_1" cubeObj (by rfl)

/-- C2: with an object selected, the Invert Matrix handler is atomic: if the
selected mesh matrix has determinant 0 it reports an error toast and returns
the state untouched (mesh matrix and transform included); if the determinant
is nonzero it reports success, stores the three.js inverse as the mesh
matrix, and sets the transform to the decomposition of that inverse
(`decompose` being the library pipeline the handler delegates to). -/
theorem invertMatrix_atomic (decompose : Matrix4 → Transform) (s : AppState)
    (obj : SceneObject) (h : findSelected s = some obj) :
    (threeDeterminant obj.meshMatrix = 0 →
      invertMatrix decompose s = (s, some ToastKind.error)) ∧
    (threeDeterminant obj.meshMatrix ≠ 0 →
      (invertMatrix decompose s).2 = some ToastKind.success ∧
      meshMatrixOf (invertMatrix decompose s).1 obj.id =
        some (threeInvert obj.meshMatrix) ∧
      (invertMatrix decompose s).1.transform =
        decompose (threeInvert obj.meshMatrix)) := by
  obtain ⟨i, hsel, hfind, hid⟩ := findSelected_spec s obj h
  constructor
  · intro h0
    simp only [invertMatrix, h]
    rw [threeInvert_of_det_eq_zero _ h0]
    simp [threeDeterminant_zero4]
  · intro h0
    have hinv := threeDeterminant_threeInvert_ne_zero _ h0
    refine ⟨?_, ?_, ?_⟩
    · simp only [invertMatrix, h]
      rw [if_neg hinv]
    · have hset : meshMatrixOf (setMeshMatrix s obj.id (threeInvert obj.meshMatrix))
          obj.id = some (threeInvert obj.meshMatrix) := by
        apply meshMatrixOf_setMeshMatrix s obj obj.id _ ?_ rfl
        rw [hid]
        exact hfind
      simp only [invertMatrix, h]
      rw [if_neg hinv]
      simpa [meshMatrixOf, appReducer] using hset
    · simp only [invertMatrix, h]
      rw [if_neg hinv]
      simp [appReducer, mergeTransform]

/-- Witness for C2: on the demo states, inverting the singular sphere mesh
errors and changes nothing, while inverting the invertible cube mesh
succeeds. -/
theorem invertMatrix_atomic_witness :
    invertMatrix (fun _ => initialTransform) demoStateSphere =
      (demoStateSphere, some ToastKind.error) ∧
    (invertMatrix (fun _ => initialTransform) demoState).2 =
      some ToastKind.success :=
  ⟨(invertMatrix_atomic (fun _ => initialTransform) demoStateSphere sphereObj
      (by rfl)).1
      (by simp [sphereObj, singular4, threeDeterminant]),
    ((invertMatrix_atomic (fun _ => initialTransform) demoState cubeObj
      (by rfl)).2
      (by simp [cubeObj, identity4, threeDeterminant])).1⟩

/-- C3: with an object selected, Apply Identity dispatches `UPDATE_TRANSFORM`
with zero position, zero rotation and unit scale, so the resulting transform
equals the initial transform; with nothing selected the handler returns
early and the state is unchanged. -/
theorem applyIdentityMatrix_resets_transform (s : AppState) :
    (∀ obj, findSelected s = some obj →
      (applyIdentityMatrix s).transform = initialTransform) ∧
    (findSelected s = none → applyIdentityMatrix s = s) := by
  constructor
  · intro obj h
    simp [applyIdentityMatrix, h, appReducer, mergeTransform, initialTransform]
  · intro h
    simp [applyIdentityMatrix, h]

/-- Witness for C3: applying the identity on the demo state resets the
transform; on the initial state (nothing selected) nothing changes. -/
theorem applyIdentityMatrix_resets_transform_witness :
    (applyIdentityMatrix demoState).transform = initialTransform ∧
    applyIdentityMatrix initialState = initialState :=
  ⟨(applyIdentityMatrix_resets_transform demoState).1 cubeObj (by rfl),
    (applyIdentityMatrix_resets_transform initialState).2 (by rfl)⟩

/-- C4: rotations are entered in degrees but stored in radians.  Setting a
rotation axis to `d` degrees (slider handler, and the numeric-input handler
on field `'rotation'`) stores `d * pi / 180`, and the displayed value
`stored * 180 / pi` recovers `d` exactly, so set-then-display is the
identity in exact arithmetic. -/
theorem rotation_degree_roundtrip (pi : ℚ) (s : AppState) (axis : Axis)
    (d : ℚ) (h : pi ≠ 0) :
    getAxis (handleRotationChange pi s axis d).transform.rotation axis =
      d * pi / 180 ∧
    displayedRotationDeg pi (handleRotationChange pi s axis d) axis = d ∧
    displayedRotationDeg pi
      (handleInputChange pi s TransformField.rotation axis (some d)) axis = d := by
  refine ⟨?_, ?_, ?_⟩ <;>
    (cases axis <;>
      (simp [handleRotationChange, handleInputChange, displayedRotationDeg,
        appReducer, mergeTransform, getAxis, setAxis]
       try field_simp
       try ring))

/-- Witness for C4 at `pi := 3`, `d := 90` on the initial state. -/
theorem rotation_degree_roundtrip_witness :
    (3 : ℚ) ≠ 0 ∧
    getAxis (handleRotationChange 3 initialState Axis.x 90).transform.rotation
      Axis.x = 90 * 3 / 180 ∧
    displayedRotationDeg 3 (handleRotationChange 3 initialState Axis.x 90)
      Axis.x = 90 :=
  ⟨by norm_num,
    (rotation_degree_roundtrip 3 initialState Axis.x 90 (by norm_num)).1,
    (rotation_degree_roundtrip 3 initialState Axis.x 90 (by norm_num)).2.1⟩

/-- C5: `REMOVE_OBJECT` filters out exactly the objects whose id equals the
payload (keeping the rest in order, as a sublist of the original);
`selectedObjectId` becomes `none` when it equalled the removed id and is kept
otherwise; transform, viewport settings and theme are untouched. -/
theorem removeObject_filters (s : AppState) (i : String) :
    (appReducer s (AppAction.removeObject i)).objects =
      s.objects.filter (fun o => o.id != i) ∧
    List.Sublist (appReducer s (AppAction.removeObject i)).objects s.objects ∧
    (∀ o, o ∈ (appReducer s (AppAction.removeObject i)).objects ↔
      (o ∈ s.objects ∧ o.id ≠ i)) ∧
    (appReducer s (AppAction.removeObject i)).selectedObjectId =
      (if s.selectedObjectId = some i then none else s.selectedObjectId) ∧
    (appReducer s (AppAction.removeObject i)).transform = s.transform ∧
    (appReducer s (AppAction.removeObject i)).viewportSettings =
      s.viewportSettings ∧
    (appReducer s (AppAction.removeObject i)).theme = s.theme := by
  refine ⟨rfl, List.filter_sublist _, ?_, rfl, rfl, rfl, rfl⟩
  intro o
  simp [appReducer, List.mem_filter, bne_iff_ne]

/-- C6: `SELECT_OBJECT` with an id that matches no object still records that
id as selected (so `selectedObjectId` may dangle) and resets the transform
to zero position, zero rotation, unit scale. -/
theorem selectObject_missing_id (s : AppState) (i : String)
    (h : s.objects.find? (fun o => o.id == i) = none) :
    (appReducer s (AppAction.selectObject i)).selectedObjectId = some i ∧
    (appReducer s (AppAction.selectObject i)).transform = initialTransform := by
  simp [appReducer, h]

/-- Witness for C6: selecting an id absent from the demo state. -/
theorem selectObject_missing_id_witness :
    (appReducer demoState (AppAction.selectObject "ghost")).selectedObjectId =
      some "ghost" ∧
    (appReducer demoState (AppAction.selectObject "ghost")).transform =
      initialTransform :=
  selectObject_missing_id demoState "ghost" (by rfl)

/-- C7: each viewport toggle flips exactly its own field (the resulting
viewport settings are the old ones with that one field replaced) and leaves
every other state field alone; applying the same toggle twice restores the
original viewport settings; the projection toggle always changes the
projection, and (the type having exactly the two values `'perspective'` and
`'orthographic'`) therefore alternates between them. -/
theorem viewport_toggles_involutive (s : AppState) :
    ((toggleGrid s).viewportSettings =
        { s.viewportSettings with showGrid := !s.viewportSettings.showGrid } ∧
      (toggleGrid s).objects = s.objects ∧
      (toggleGrid s).selectedObjectId = s.selectedObjectId ∧
      (toggleGrid s).transform = s.transform ∧
      (toggleGrid s).theme = s.theme ∧
      (toggleGrid (toggleGrid s)).viewportSettings = s.viewportSettings) ∧
    ((toggleAxes s).viewportSettings =
        { s.viewportSettings with showAxes := !s.viewportSettings.showAxes } ∧
      (toggleAxes s).objects = s.objects ∧
      (toggleAxes s).selectedObjectId = s.selectedObjectId ∧
      (toggleAxes s).transform = s.transform ∧
      (toggleAxes s).theme = s.theme ∧
      (toggleAxes (toggleAxes s)).viewportSettings = s.viewportSettings) ∧
    ((toggleWireframe s).viewportSettings =
        { s.viewportSettings with wireframe := !s.viewportSettings.wireframe } ∧
      (toggleWireframe s).objects = s.objects ∧
      (toggleWireframe s).selectedObjectId = s.selectedObjectId ∧
      (toggleWireframe s).transform = s.transform ∧
      (toggleWireframe s).theme = s.theme ∧
      (toggleWireframe (toggleWireframe s)).viewportSettings =
        s.viewportSettings) ∧
    ((toggleProjection s).viewportSettings.showGrid =
        s.viewportSettings.showGrid ∧
      (toggleProjection s).viewportSettings.showAxes =
        s.viewportSettings.showAxes ∧
      (toggleProjection s).viewportSettings.wireframe =
        s.viewportSettings.wireframe ∧
      (toggleProjection s).objects = s.objects ∧
      (toggleProjection s).selectedObjectId = s.selectedObjectId ∧
      (toggleProjection s).transform = s.transform ∧
      (toggleProjection s).theme = s.theme ∧
      (toggleProjection s).viewportSettings.projection ≠
        s.viewportSettings.projection ∧
      (toggleProjection (toggleProjection s)).viewportSettings =
        s.viewportSettings) := by
  refine ⟨⟨rfl, rfl, rfl, rfl, rfl, ?_⟩, ⟨rfl, rfl, rfl, rfl, rfl, ?_⟩,
    ⟨rfl, rfl, rfl, rfl, rfl, ?_⟩,
    ⟨rfl, rfl, rfl, rfl, rfl, rfl, rfl, ?_, ?_⟩⟩
  · ext <;> simp [toggleGrid, appReducer, mergeViewport]
  · ext <;> simp [toggleAxes, appReducer, mergeViewport]
  · ext <;> simp [toggleWireframe, appReducer, mergeViewport]
  · cases hp : s.viewportSettings.projection <;>
      simp [toggleProjection, appReducer, mergeViewport, hp]
  · cases hp : s.viewportSettings.projection <;>
      (simp [toggleProjection, appReducer, mergeViewport, hp]; rw [← hp])

/-- C8: the orthogonality check computes `Mᵀ * M` on a clone (so the
inspected matrix is untouched by construction) and returns `true` exactly
when that product is elementwise equal to the identity matrix. -/
theorem checkIfOrthogonal_iff (m : Matrix4) :
    checkIfOrthogonal m = true ↔ mul4 (transpose4 m) m = identity4 := by
  simp [checkIfOrthogonal, matrix4Equals]

/-- C9: the five actions `SELECT_OBJECT`, `UPDATE_TRANSFORM`,
`RESET_TRANSFORM`, `UPDATE_VIEWPORT_SETTINGS` and `TOGGLE_THEME` leave the
objects list of the reducer state unchanged. -/
theorem frame_actions_preserve_objects (s : AppState) (a : AppAction)
    (h : frameAction a = true) :
    (appReducer s a).objects = s.objects := by
  cases a with
  | selectObject i =>
      cases hf : s.objects.find? (fun o => o.id == i) <;> simp [appReducer, hf]
  | updateTransform p => rfl
  | resetTransform => rfl
  | updateViewportSettings p => rfl
  | toggleTheme => rfl
  | addObject o => exact absurd h (by simp [frameAction])
  | removeObject i => exact absurd h (by simp [frameAction])
  | updateObjectMatrix i m => exact absurd h (by simp [frameAction])

/-- Witness for C9: `RESET_TRANSFORM` on the demo state keeps the objects. -/
theorem frame_actions_preserve_objects_witness :
    (appReducer demoState AppAction.resetTransform).objects =
      demoState.objects :=
  frame_actions_preserve_objects demoState AppAction.resetTransform (by rfl)

/-- C10: when the numeric parse comes back `NaN` (modelled as `none`), the
numeric-input handlers dispatch nothing: `handleInputChange` returns the
state unchanged and `handleCustomMatrixChange` returns the custom-matrix
array unchanged. -/
theorem nan_input_no_dispatch (pi : ℚ) (s : AppState) (f : TransformField)
    (axis : Axis) (customMatrix : List ℚ) (index : Nat) :
    handleInputChange pi s f axis none = s ∧
    handleCustomMatrixChange customMatrix index none = customMatrix :=
  ⟨rfl, rfl⟩
